import Mathlib

/-!
Shallow embedding of the M365APIControls repository.

The embedding covers the token-acquisition workflow (`acquire_token` in
`M365SematicKernel/src/auth.py` and `M365ChatAPI/src/getToken.py`, whose
bodies are line-for-line identical), the `get_access_token` wrapper, the
token-cache persistence (`save_cache_on_exit` plus the `atexit`
registration), the chat turn loop of `M365ChatAPI/src/main.py`, the
Semantic Kernel plugins of `M365SematicKernel/src/tooling.py`
(`send_message_sync`, `end_conversation`, `generate_word_document_bytes`,
`upload_generated_file`) and the Semantic Kernel prompt loop of
`M365SematicKernel/src/main.py`.

Python values appearing in JSON payloads are modelled by `JVal`; Python
exceptions that the scripts can raise or catch are modelled by `PyExc`.
External collaborators (the MSAL identity library, the HTTP transport,
the Azure chat model, python-docx) are modelled as environment data that
records the outcome of each outbound call, as the spec directs.
-/

/-- A JSON value as produced by `response.json()`. -/
inductive JVal where
  | null
  | bool (b : Bool)
  | num (n : Int)
  | str (s : String)
  | arr (xs : List JVal)
  | obj (kvs : List (String × JVal))

/-- Python exceptions relevant to these scripts. -/
inductive PyExc where
  | keyError
  | indexError
  | typeError
  | attributeError
  | httpError (status : Nat)
  | requestException
  | genericError (msg : String)
deriving DecidableEq, Repr

/-- Python subscripting `v[k]` with a string key.  A dict looks the key up
and raises `KeyError` when absent; lists and strings require integer
indices and raise `TypeError` on a string key; every other value raises
`TypeError`. -/
def getKey (v : JVal) (k : String) : Except PyExc JVal :=
  match v with
  | .obj kvs =>
    match kvs.lookup k with
    | some w => .ok w
    | none => .error .keyError
  | .arr _ => .error .typeError
  | .str _ => .error .typeError
  | _ => .error .typeError

/-- Python subscripting `v[i]` with an integer index.  A list yields the
element or raises `IndexError`; a string yields a one-character string or
raises `IndexError`; a dict raises `KeyError` (its keys are strings in
these payloads); other values raise `TypeError`. -/
def getIdx (v : JVal) (i : Nat) : Except PyExc JVal :=
  match v with
  | .arr xs =>
    match xs.get? i with
    | some w => .ok w
    | none => .error .indexError
  | .str s =>
    match s.data.get? i with
    | some c => .ok (.str (String.mk [c]))
    | none => .error .indexError
  | .obj _ => .error .keyError
  | _ => .error .typeError

/-- The reply-extraction expression shared by both script variants:
`response_data['messages'][1]['text']`. -/
def extract_reply (response_data : JVal) : Except PyExc JVal := do
  let msgs ← getKey response_data "messages"
  let second ← getIdx msgs 1
  getKey second "text"

/-- Model of Python `str.lower()` (ASCII range, which is all these scripts
compare against). -/
def py_lower (s : String) : String := String.mk (s.data.map Char.toLower)

/-- Whitespace characters removed by Python `str.strip()` on the inputs
these scripts see. -/
def py_space (c : Char) : Bool := c = ' ' || c = '\t' || c = '\n' || c = '\r'

/-- Model of Python `str.strip()`: drop whitespace from both ends. -/
def py_strip (s : String) : String :=
  String.mk (((s.data.dropWhile py_space).reverse.dropWhile py_space).reverse)

/-- Python truthiness of an optional string (`None` and `""` are falsy). -/
def pyTruthy : Option String → Bool
  | none => false
  | some s => !s.isEmpty

/-- Outcome of one outbound HTTP call: the transport either raises a
connection-level `RequestException` or delivers a response with a status
code and a JSON body. -/
inductive HttpResult where
  | connFailure
  | response (status : Nat) (body : JVal)

/-- `requests.Response.raise_for_status` raises exactly for 4xx and 5xx
status codes. -/
def raise_for_status_raises (status : Nat) : Bool :=
  400 ≤ status && status < 600

/-! ## Token manager (`auth.py` / `getToken.py`, `acquire_token`) -/

/-- Outcome of `pca.acquire_token_silent`: it can raise, return `None`
(MSAL's signal that silent acquisition failed — no usable cached or
refreshable token), or return a result dict whose `"access_token"` entry
is read with `.get`. -/
inductive SilentOutcome where
  | raises
  | pyNone
  | success (tok : Option String)

/-- Silent acquisition failed: the call raised or returned `None`. -/
def silentFailed : SilentOutcome → Bool
  | .raises => true
  | .pyNone => true
  | .success _ => false

/-- Environment for one `acquire_token` call: the cached accounts visible
to `pca.get_accounts()`, the behaviour of the silent step, and the
behaviour of `pca.acquire_token_interactive` (raises, or returns a dict
whose `"access_token"` entry may be absent). -/
structure AuthEnv where
  accounts : List String
  silent : SilentOutcome
  interactive : Except PyExc (Option String)

/-- Result of `acquire_token`: the returned token value (`None` is
possible) together with whether the interactive flow was attempted. -/
structure AcquireOutcome where
  token : Option String
  interactiveAttempted : Bool
deriving DecidableEq, Repr

/-- `acquire_token` from `auth.py` lines 41-83 (= `getToken.py` lines
28-60).  If accounts exist, the silent step runs inside `try`: a raise is
caught and sets `retry_interactive`; a `None` return makes
`response.get("access_token")` raise `AttributeError`, which the same
`except` catches, also setting `retry_interactive`; a dict return yields
`dict.get("access_token")`.  With no accounts, or after a caught silent
failure, `acquire_token_interactive` runs outside any `try` (its raise
propagates) and the function returns its dict's `"access_token"`. -/
def acquire_token (env : AuthEnv) : Except PyExc AcquireOutcome :=
  let step : Bool × Option String :=
    if env.accounts.isEmpty then
      (true, none)
    else
      match env.silent with
      | .raises => (true, none)
      | .pyNone => (true, none)
      | .success t => (false, t)
  if step.1 then
    match env.interactive with
    | .error e => .error e
    | .ok t => .ok ⟨t, true⟩
  else
    .ok ⟨step.2, false⟩

/-- `get_access_token` from `M365ChatAPI/src/main.py` lines 16-20 (=
`M365SematicKernel/src/main.py` lines 63-67):
`if acquire_token(): return acquire_token() else raise`.  The two calls
run against possibly different environments (the first call's interactive
login mutates the cache the second call reads).  The second component
counts how many times `acquire_token` was invoked. -/
def get_access_token (env1 env2 : AuthEnv) : Except PyExc (Option String) × Nat :=
  match acquire_token env1 with
  | .error e => (.error e, 1)
  | .ok r1 =>
    if pyTruthy r1.token then
      match acquire_token env2 with
      | .error e => (.error e, 2)
      | .ok r2 => (.ok r2.token, 2)
    else
      (.error (.genericError "Could not acquire token"), 1)

/-! ## Token-cache persistence (`auth.py` `save_cache_on_exit`,
`main.py` `atexit.register(save_cache_on_exit)`) -/

/-- The MSAL `SerializableTokenCache`: serialized-able entries plus the
`has_state_changed` dirty flag, which MSAL sets whenever the cache is
mutated and resets on `deserialize`. -/
structure MsalCache where
  entries : List String
  has_state_changed : Bool
deriving DecidableEq, Repr

/-- `cache.serialize()`. -/
def cache_serialize (c : MsalCache) : String :=
  String.intercalate "\n" c.entries

/-- `cache.deserialize(blob)`: replaces the contents and clears the dirty
flag. -/
def cache_deserialize (blob : String) : MsalCache :=
  { entries := blob.splitOn "\n", has_state_changed := false }

/-- Cache loading at the top of `acquire_token` (auth.py lines 43-49): if
the cache file exists its contents are deserialized; otherwise the cache
object stays as constructed. -/
def load_cache (file : Option String) (c : MsalCache) : MsalCache :=
  match file with
  | some blob => cache_deserialize blob
  | none => c

/-- One credential mutation performed by MSAL during the run (a token
upsert from a silent refresh or an interactive login): it changes the
entries and sets `has_state_changed`. -/
def applyMutation (c : MsalCache) (m : String) : MsalCache :=
  { entries := c.entries ++ [m], has_state_changed := true }

/-- `save_cache_on_exit` (auth.py lines 35-39): write the serialized
cache to the file only when `has_state_changed` holds.  Returns the file
contents after the handler and the number of write operations performed. -/
def save_cache_on_exit (c : MsalCache) (file : Option String) : Option String × Nat :=
  if c.has_state_changed then
    (some (cache_serialize c), 1)
  else
    (file, 0)

/-- One process run of the Semantic Kernel script with respect to the
token cache: the module-level `msal.SerializableTokenCache()` starts
empty and clean, `acquire_token` loads the cache file at startup, MSAL
applies the run's credential mutations (each marking the cache dirty),
and at process exit the single `atexit`-registered `save_cache_on_exit`
handler runs exactly once.  Returns the final cache-file contents and the
number of file writes. -/
def run_process (file0 : Option String) (muts : List String) : Option String × Nat :=
  let c0 : MsalCache := ⟨[], false⟩
  let c1 := load_cache file0 c0
  let c2 := muts.foldl applyMutation c1
  save_cache_on_exit c2 file0

/-! ## Chat loop of `M365ChatAPI/src/main.py` -/

/-- Observable events of the M365ChatAPI turn loop. -/
inductive ChatEvent where
  | sentTurn (text : String)
  | printedReply (t : JVal)
  | printedExtractError (raw : JVal)

/-- How a prompt loop ends: `sys.exit` on the reserved input, an uncaught
exception propagating out of the loop, or exhaustion of the modelled
stdin prefix. -/
inductive LoopExit where
  | exitCalled
  | raised (e : PyExc)
  | inputsExhausted

/-- `send_message` from `M365ChatAPI/src/main.py` lines 36-68, unrolled
over a finite prefix of stdin lines and the scripted responses of the
remote chat endpoint.  Each read line is normalized with
`.lower().strip()`; `"exit"` calls `sys.exit(0)`; otherwise the text is
POSTed, `raise_for_status()` raises on 4xx/5xx (uncaught here), and the
reply is extracted via `response_data['messages'][1]['text']` inside a
`try` that catches only `KeyError` and `IndexError` (printing the full
payload); then the function recurses for the next turn. -/
def chatapi_loop : List String → List HttpResult → List ChatEvent × LoopExit
  | [], _ => ([], .inputsExhausted)
  | line :: rest, resps =>
    let prompt_text := py_strip (py_lower line)
    if prompt_text = "exit" then
      ([], .exitCalled)
    else
      match resps with
      | [] => ([], .inputsExhausted)
      | r :: rs =>
        match r with
        | .connFailure => ([.sentTurn prompt_text], .raised .requestException)
        | .response status body =>
          if raise_for_status_raises status then
            ([.sentTurn prompt_text], .raised (.httpError status))
          else
            match extract_reply body with
            | .ok t =>
              let k := chatapi_loop rest rs
              (.sentTurn prompt_text :: .printedReply t :: k.1, k.2)
            | .error .keyError =>
              let k := chatapi_loop rest rs
              (.sentTurn prompt_text :: .printedExtractError body :: k.1, k.2)
            | .error .indexError =>
              let k := chatapi_loop rest rs
              (.sentTurn prompt_text :: .printedExtractError body :: k.1, k.2)
            | .error e => ([.sentTurn prompt_text], .raised e)

/-- Process-level outcome of the M365ChatAPI script. -/
inductive ProcOutcome where
  | exited
  | errorPrinted (e : PyExc)
  | finished

/-- `main` from `M365ChatAPI/src/main.py` lines 70-77: inside one
`try/except Exception`, acquire the token via `get_access_token`, create
the conversation (`POST /conversations`, `raise_for_status`, then
`response.json()['id']`), and enter the turn loop.  An exception raised
anywhere is caught, printed, and the process ends; `sys.exit` (a
`SystemExit`, not an `Exception`) is not caught. -/
def chatapi_main (env1 env2 : AuthEnv) (convResp : HttpResult)
    (inputs : List String) (resps : List HttpResult) : ProcOutcome :=
  match (get_access_token env1 env2).1 with
  | .error e => .errorPrinted e
  | .ok _tok =>
    match convResp with
    | .connFailure => .errorPrinted .requestException
    | .response status body =>
      if raise_for_status_raises status then
        .errorPrinted (.httpError status)
      else
        match getKey body "id" with
        | .error e => .errorPrinted e
        | .ok _convId =>
          match (chatapi_loop inputs resps).2 with
          | .exitCalled => .exited
          | .raised e => .errorPrinted e
          | .inputsExhausted => .finished

/-! ## Semantic Kernel plugins (`M365SematicKernel/src/tooling.py`) -/

/-- The string returned by `M365CopilotPlugin.send_message_sync`
(tooling.py lines 33-71): the extracted reply value, the
could-not-extract message carrying the full payload, or the
request-failure message. -/
inductive SyncReply where
  | reply (t : JVal)
  | extractError (raw : JVal)
  | connError

/-- `send_message_sync` (tooling.py lines 33-71).  `raise_for_status` is
commented out, so the HTTP status is never inspected; the body is parsed
and `response_data['messages'][1]['text']` is attempted inside a `try`
that catches only `KeyError` and `IndexError` (returning an error string
with the full payload).  The outer `try` catches only
`requests.exceptions.RequestException`; any other exception (for example
a `TypeError` from the extraction) propagates. -/
def send_message_sync (resp : HttpResult) : Except PyExc SyncReply :=
  match resp with
  | .connFailure => .ok .connError
  | .response _status body =>
    match extract_reply body with
    | .ok t => .ok (.reply t)
    | .error .keyError => .ok (.extractError body)
    | .error .indexError => .ok (.extractError body)
    | .error e => .error e

/-- `M365CopilotPlugin.end_conversation` (tooling.py lines 74-82): issue
`DELETE /conversations/{id}`; `raise_for_status` errors and connection
failures are both `RequestException`s, caught and rendered as strings, so
the call never raises.  The second component records that the DELETE
request was issued. -/
def end_conversation (conversation_id : String) (resp : HttpResult) : String × Bool :=
  match resp with
  | .connFailure => ("Error ending conversation: request failed", true)
  | .response status _ =>
    if raise_for_status_raises status then
      ("Error ending conversation: HTTP " ++ toString status, true)
    else
      ("Conversation " ++ conversation_id ++ " successfully ended/deleted.", true)

/-- An `io.BytesIO` buffer: its bytes and the current read position.
`read()` returns everything from the position onward and leaves the
position at the end. -/
structure PyBuffer where
  data : List Nat
  pos : Nat
deriving DecidableEq, Repr

/-- `buffer.read()`. -/
def PyBuffer.readAll (b : PyBuffer) : List Nat × PyBuffer :=
  (b.data.drop b.pos, { b with pos := b.data.length })

/-- A Python attribute slot: never assigned (access raises
`AttributeError`), assigned `None`, or assigned a value. -/
inductive PyAttr (α : Type) where
  | unset
  | pyNone
  | val (a : α)
deriving DecidableEq, Repr

/-- `LocalDocumentGeneratorPlugin` state (tooling.py lines 84-121).
`__init__` assigns only `self.content = ""`; `document_buffer` and
`filename` are assigned for the first time inside
`generate_word_document_bytes`. -/
structure LocalDocumentGeneratorPlugin where
  content : String
  document_buffer : PyAttr PyBuffer
  filename : PyAttr String
deriving DecidableEq, Repr

/-- `LocalDocumentGeneratorPlugin.__init__` (tooling.py lines 88-90). -/
def generatorInit : LocalDocumentGeneratorPlugin :=
  { content := "", document_buffer := .unset, filename := .unset }

/-- Modelled from the spec: the byte stream that the external python-docx
collaborator (`Document()`, `add_paragraph(content)`, `save(buffer)`)
writes into the in-memory buffer.  A `.docx` file is a ZIP container, so
the stream always begins with the nonempty `PK` magic; only this
nonemptiness matters to the claims. -/
def docx_render (content : String) : List Nat :=
  0x50 :: 0x4B :: content.data.map Char.toNat

/-- `generate_word_document_bytes` (tooling.py lines 93-121): with falsy
content (`None` or `""`) return the no-content error string without
touching the buffer; otherwise build the document bytes in a fresh
`BytesIO`, `seek(0)`, store the buffer and filename on the plugin, and
return the success message. -/
def generate_word_document_bytes (g : LocalDocumentGeneratorPlugin)
    (filename content : String) : String × LocalDocumentGeneratorPlugin :=
  if content.isEmpty then
    ("Error: No content provided and no previous Copilot response found to use.", g)
  else
    let buffer : PyBuffer := { data := docx_render content, pos := 0 }
    ("Successfully generated Word document content for '" ++ filename ++
       "' in memory (Bytes available for local use).",
     { g with document_buffer := .val buffer, filename := .val filename })

/-- The message returned by `upload_generated_file`. -/
inductive UploadMsg where
  | noFileContent
  | bufferEmpty
  | success (webUrl : JVal)
  | httpFailure (status : Nat)

/-- Result of one `upload_generated_file` call: the returned message or
the propagated exception, the generator plugin's state afterwards (its
buffer is mutated by `read()`), and whether a PUT request was issued. -/
structure UploadResult where
  outcome : Except PyExc UploadMsg
  gen : LocalDocumentGeneratorPlugin
  putIssued : Bool

/-- `GraphSharePointUploaderPlugin.upload_generated_file` (tooling.py
lines 138-170).  It first reads `generator_plugin_ref.document_buffer`:
if the attribute was never assigned, Python raises `AttributeError`
(uncaught in the plugin); the `is None` guard returns the no-file-content
error string; otherwise `buffer.read()` consumes the buffer, the filename
attribute is read, and an empty read returns the buffer-empty error
string before any request.  The PUT runs inside a `try` catching only
`requests.exceptions.HTTPError` (rendered with the status); a
connection-level failure propagates; on 2xx the response body's
`['webUrl']` is read with bracket access, whose `KeyError` also
propagates. -/
def upload_generated_file (g : LocalDocumentGeneratorPlugin)
    (putResp : HttpResult) : UploadResult :=
  match g.document_buffer with
  | .unset => { outcome := .error .attributeError, gen := g, putIssued := false }
  | .pyNone => { outcome := .ok .noFileContent, gen := g, putIssued := false }
  | .val buf =>
    let rd := buf.readAll
    let g2 := { g with document_buffer := .val rd.2 }
    match g.filename with
    | .unset => { outcome := .error .attributeError, gen := g2, putIssued := false }
    | _ =>
      if rd.1.isEmpty then
        { outcome := .ok .bufferEmpty, gen := g2, putIssued := false }
      else
        match putResp with
        | .connFailure =>
          { outcome := .error .requestException, gen := g2, putIssued := true }
        | .response status body =>
          if raise_for_status_raises status then
            { outcome := .ok (.httpFailure status), gen := g2, putIssued := true }
          else
            match getKey body "webUrl" with
            | .ok u => { outcome := .ok (.success u), gen := g2, putIssued := true }
            | .error e => { outcome := .error e, gen := g2, putIssued := true }

/-! ## Semantic Kernel prompt loop (`M365SematicKernel/src/main.py`) -/

/-- Observable events of the Semantic Kernel prompt loop. -/
inductive SKEvent where
  | printedCleaningUp
  | httpDelete (conversation_id : String)
  | skippedEmpty
  | invokedTurn (text : String)
  | displayedResult
  | printedError
deriving DecidableEq, Repr

/-- Outcome of one `azure_chat_service.get_chat_message_content` call
(the external reasoning collaborator, which may invoke plugin functions
internally): it returns a rendered string or raises. -/
inductive AIResult where
  | reply (s : String)
  | raises

/-- The command-line loop of `M365SematicKernel/src/main.py` lines
139-172, over a finite prefix of stdin lines and the scripted outcomes of
the per-turn AI invocations.  Each line is `.strip()`ped; if its
`.lower()` equals `"exit"` the script prints the exiting/cleaning-up
messages — the `end_conversation` invocation on this path is commented
out in the source — and calls `sys.exit()`.  Empty input `continue`s.
Otherwise the AI service is invoked inside a `try`: a returned reply is
displayed and the loop continues; a raise prints the error and `break`s,
after which the post-loop block prints the same cleaning-up messages
(its `end_conversation` invocation is also commented out) and calls
`sys.exit()`. -/
def sk_loop : List String → List AIResult → List SKEvent × LoopExit
  | [], _ => ([], .inputsExhausted)
  | line :: rest, ais =>
    let user_prompt := py_strip line
    if py_lower user_prompt = "exit" then
      ([.printedCleaningUp], .exitCalled)
    else if user_prompt.isEmpty then
      let k := sk_loop rest ais
      (.skippedEmpty :: k.1, k.2)
    else
      match ais with
      | [] => ([], .inputsExhausted)
      | a :: tailAis =>
        match a with
        | .reply _ =>
          let k := sk_loop rest tailAis
          (.invokedTurn user_prompt :: .displayedResult :: k.1, k.2)
        | .raises =>
          ([.invokedTurn user_prompt, .printedError, .printedCleaningUp], .exitCalled)

/-! ## Concrete payloads from the spec's end-to-end scenarios -/

/-- Scenario A payload:
`{"messages":[{"role":"user","text":"hello"},{"role":"assistant","text":"hi there"}]}`. -/
def payloadA : JVal :=
  .obj [("messages", .arr
    [ .obj [("role", .str "user"), ("text", .str "hello")],
      .obj [("role", .str "assistant"), ("text", .str "hi there")] ])]

/-- Scenario B payload: `{"messages":[{"role":"user","text":"x"}]}`. -/
def payloadB : JVal :=
  .obj [("messages", .arr [ .obj [("role", .str "user"), ("text", .str "x")] ])]

/-- A well-formed payload whose second message is a number instead of a
message object: `{"messages":[{"role":"user","text":"x"}, 5]}`. -/
def payloadT : JVal :=
  .obj [("messages", .arr [ .obj [("role", .str "user"), ("text", .str "x")], .num 5 ])]

/-- Scenario C upload-mock response body: `{"webUrl":"https://site/report.docx"}`. -/
def payloadC : JVal :=
  .obj [("webUrl", .str "https://site/report.docx")]

/-! ## Claim theorems -/

/-- C1 counterexample: a cached account whose refresh material is invalid
(silent acquisition returns `None`) while the interactive flow yields a
result dict without an `access_token`.  `acquire_token` falls back to the
interactive flow but returns `None` — an absent token — contradicting the
claim that it "does not return a stale or absent token". -/
theorem C1_counterexample :
    (AuthEnv.mk ["user"] .pyNone (.ok none)).accounts ≠ [] ∧
    silentFailed (AuthEnv.mk ["user"] .pyNone (.ok none)).silent = true ∧
    acquire_token (AuthEnv.mk ["user"] .pyNone (.ok none)) =
      .ok { token := none, interactiveAttempted := true } :=
  ⟨by simp, rfl, rfl⟩

/-- C1 (amended): whenever silent acquisition fails for an existing
cached account (the call raises, or returns `None`), the interactive flow
is attempted and `acquire_token`'s result is exactly the interactive
acquisition's token — never the stale cached one; the result is absent
only when the interactive flow itself yields no token. -/
theorem C1_silent_failure_interactive_fallback (env : AuthEnv)
    (h1 : env.accounts ≠ []) (h2 : silentFailed env.silent = true) :
    acquire_token env = env.interactive.map fun t => AcquireOutcome.mk t true := by
  obtain ⟨accs, sil, inter⟩ := env
  cases accs with
  | nil => simp at h1
  | cons a as =>
    cases sil with
    | raises => cases inter <;> rfl
    | pyNone => cases inter <;> rfl
    | success t => simp [silentFailed] at h2

/-- C1 witness: concrete cached account, silent failure, interactive
success. -/
theorem C1_witness :
    (AuthEnv.mk ["user"] .pyNone (.ok (some "fresh"))).accounts ≠ [] ∧
    silentFailed (AuthEnv.mk ["user"] .pyNone (.ok (some "fresh"))).silent = true ∧
    acquire_token (AuthEnv.mk ["user"] .pyNone (.ok (some "fresh"))) =
      (AuthEnv.mk ["user"] .pyNone (.ok (some "fresh"))).interactive.map
        fun t => AcquireOutcome.mk t true :=
  ⟨by simp, rfl,
    C1_silent_failure_interactive_fallback (AuthEnv.mk ["user"] .pyNone (.ok (some "fresh")))
      (by simp) rfl⟩

/-- C10: when the first `acquire_token` call inside `get_access_token`
yields a truthy token, the whole acquisition workflow runs a second time
and the wrapper returns the second invocation's token (or propagates the
second invocation's exception), independent of the first. -/
theorem C10_wrapper_double_invocation (env1 env2 : AuthEnv) (r1 : AcquireOutcome)
    (h1 : acquire_token env1 = .ok r1) (h2 : pyTruthy r1.token = true) :
    (get_access_token env1 env2).2 = 2 ∧
    (get_access_token env1 env2).1 = (acquire_token env2).map AcquireOutcome.token := by
  unfold get_access_token
  rw [h1]
  simp only [h2, if_true]
  cases acquire_token env2 <;> simp [Except.map]

/-- C10 witness: both calls resolve via interactive login (empty cache),
the first yields `"first"`, the second `"second"`; the wrapper invokes
the workflow twice and returns `"second"`. -/
theorem C10_witness :
    acquire_token (AuthEnv.mk [] .pyNone (.ok (some "first"))) =
      .ok { token := some "first", interactiveAttempted := true } ∧
    pyTruthy (AcquireOutcome.mk (some "first") true).token = true ∧
    ((get_access_token (AuthEnv.mk [] .pyNone (.ok (some "first")))
        (AuthEnv.mk [] .pyNone (.ok (some "second")))).2 = 2 ∧
      (get_access_token (AuthEnv.mk [] .pyNone (.ok (some "first")))
        (AuthEnv.mk [] .pyNone (.ok (some "second")))).1 =
        (acquire_token (AuthEnv.mk [] .pyNone (.ok (some "second")))).map
          AcquireOutcome.token) :=
  ⟨rfl, rfl,
    C10_wrapper_double_invocation (AuthEnv.mk [] .pyNone (.ok (some "first")))
      (AuthEnv.mk [] .pyNone (.ok (some "second")))
      (AcquireOutcome.mk (some "first") true) rfl rfl⟩

/-- C2 counterexample: token acquisition succeeds and the conversation is
created, yet the first chat turn's 404 response raises an uncaught
`HTTPError` inside `send_message`: the loop stops (the second pending
input is never processed) and the exception reaches `main`'s handler,
terminating the process — so remote 4xx on a single turn is not caught at
the turn boundary and authentication failure is not the only terminating
path. -/
theorem C2_counterexample :
    (get_access_token (AuthEnv.mk [] .pyNone (.ok (some "tok")))
        (AuthEnv.mk [] .pyNone (.ok (some "tok")))).1 = .ok (some "tok") ∧
    chatapi_loop ["hi", "again"] [.response 404 (.obj [])] =
      ([.sentTurn "hi"], .raised (.httpError 404)) ∧
    chatapi_main (AuthEnv.mk [] .pyNone (.ok (some "tok")))
      (AuthEnv.mk [] .pyNone (.ok (some "tok")))
      (.response 201 (.obj [("id", .str "conv-123")]))
      ["hi", "again"] [.response 404 (.obj [])] = .errorPrinted (.httpError 404) :=
  ⟨rfl, rfl, rfl⟩

/-- C2 (amended): the two script variants differ.  In the M365ChatAPI
script a 4xx/5xx chat response makes the turn raise `HTTPError`, which
propagates past the turn boundary and ends the loop; in the Semantic
Kernel plugin `send_message_sync` never inspects the status, catches
request-level failures, and renders key/index shape mismatches as an
error string carrying the payload, so such turns return normally. -/
theorem C2_amended_turn_boundary (status : Nat) (body : JVal)
    (line : String) (rest : List String) (rs : List HttpResult)
    (h1 : raise_for_status_raises status = true)
    (h2 : py_strip (py_lower line) ≠ "exit") :
    chatapi_loop (line :: rest) (.response status body :: rs) =
      ([.sentTurn (py_strip (py_lower line))], .raised (.httpError status)) ∧
    send_message_sync .connFailure = .ok .connError ∧
    ((extract_reply body = .error .keyError ∨ extract_reply body = .error .indexError) →
      send_message_sync (.response status body) = .ok (.extractError body)) := by
  refine ⟨?_, rfl, ?_⟩
  · simp only [chatapi_loop, if_neg h2, h1, if_true]
  · intro h
    rcases h with h | h <;> simp [send_message_sync, h]

/-- C2 amended witness: a 404 on the turn `"hi"` with scenario B's body. -/
theorem C2_amended_witness :
    raise_for_status_raises 404 = true ∧
    py_strip (py_lower "hi") ≠ "exit" ∧
    (chatapi_loop ["hi"] [.response 404 payloadB] =
        ([.sentTurn (py_strip (py_lower "hi"))], .raised (.httpError 404)) ∧
      send_message_sync .connFailure = .ok .connError ∧
      ((extract_reply payloadB = .error .keyError ∨
          extract_reply payloadB = .error .indexError) →
        send_message_sync (.response 404 payloadB) = .ok (.extractError payloadB))) :=
  ⟨rfl, by decide,
    C2_amended_turn_boundary 404 payloadB "hi" [] [] rfl (by decide)⟩

/-- C5 counterexample: the well-formed payload
`{"messages":[{"role":"user","text":"x"}, 5]}` mismatches the expected
role shape (its second element is a number, not a message object); the
extraction raises `TypeError`, which neither variant catches: the claim's
"never raises an unhandled fault" is false. -/
theorem C5_counterexample :
    send_message_sync (.response 200 payloadT) = .error .typeError ∧
    chatapi_loop ["hi"] [.response 200 payloadT] =
      ([.sentTurn "hi"], .raised .typeError) :=
  ⟨rfl, rfl⟩

/-- C5 (amended): for payloads whose shape mismatch surfaces as a missing
key or index (`messages` absent, fewer than two elements, or the second
element lacking `"text"` — `KeyError`/`IndexError`), no unhandled fault
occurs: `send_message_sync` returns the error rendering that preserves
the raw payload and carries no reply text, and the M365ChatAPI loop
prints the full payload and continues with the next turn; in particular
scenario B's payload behaves this way.  Payloads whose mismatch is a
container-type confusion instead raise an uncaught `TypeError`. -/
theorem C5_amended_malformed_handling (status : Nat) (body : JVal)
    (h : extract_reply body = .error .keyError ∨ extract_reply body = .error .indexError) :
    send_message_sync (.response status body) = .ok (.extractError body) ∧
    (∀ (line : String) (rest : List String) (rs : List HttpResult),
      py_strip (py_lower line) ≠ "exit" →
      raise_for_status_raises status = false →
      chatapi_loop (line :: rest) (.response status body :: rs) =
        (.sentTurn (py_strip (py_lower line)) :: .printedExtractError body ::
            (chatapi_loop rest rs).1,
          (chatapi_loop rest rs).2)) ∧
    send_message_sync (.response 200 payloadB) = .ok (.extractError payloadB) := by
  refine ⟨?_, ?_, rfl⟩
  · rcases h with h | h <;> simp [send_message_sync, h]
  · intro line rest rs h2 h3
    rcases h with h | h <;>
      simp only [chatapi_loop, if_neg h2, h3, Bool.false_eq_true, if_false, h]

/-- C5 amended witness: scenario B's payload on the turn `"hi"` at
status 200. -/
theorem C5_amended_witness :
    (extract_reply payloadB = .error .keyError ∨
      extract_reply payloadB = .error .indexError) ∧
    (send_message_sync (.response 200 payloadB) = .ok (.extractError payloadB) ∧
      (∀ (line : String) (rest : List String) (rs : List HttpResult),
        py_strip (py_lower line) ≠ "exit" →
        raise_for_status_raises 200 = false →
        chatapi_loop (line :: rest) (.response 200 payloadB :: rs) =
          (.sentTurn (py_strip (py_lower line)) :: .printedExtractError payloadB ::
              (chatapi_loop rest rs).1,
            (chatapi_loop rest rs).2)) ∧
      send_message_sync (.response 200 payloadB) = .ok (.extractError payloadB)) :=
  ⟨Or.inr rfl, C5_amended_malformed_handling 200 payloadB (Or.inr rfl)⟩

/-- C6: when the response's `messages` list has a second element that is
a message object with a `"text"` entry, `send_message_sync` returns
exactly that entry as the reply; on scenario A's payload both variants
extract `"hi there"`. -/
theorem C6_second_element_reply (msgs : List JVal)
    (kvs : List (String × JVal)) (t : JVal)
    (h1 : msgs.get? 1 = some (.obj kvs))
    (h2 : kvs.lookup "text" = some t) :
    send_message_sync (.response 200 (.obj [("messages", .arr msgs)])) = .ok (.reply t) ∧
    send_message_sync (.response 200 payloadA) = .ok (.reply (.str "hi there")) ∧
    chatapi_loop ["hello"] [.response 200 payloadA] =
      ([.sentTurn "hello", .printedReply (.str "hi there")], .inputsExhausted) := by
  refine ⟨?_, rfl, rfl⟩
  simp only [List.get?_eq_getElem?] at h1
  simp [send_message_sync, extract_reply, getKey, getIdx, bind, Except.bind, h1, h2]

/-- C6 witness: scenario A's concrete message list. -/
theorem C6_witness :
    ([ JVal.obj [("role", .str "user"), ("text", .str "hello")],
       JVal.obj [("role", .str "assistant"), ("text", .str "hi there")] ].get? 1 =
        some (.obj [("role", .str "assistant"), ("text", .str "hi there")])) ∧
    ([("role", JVal.str "assistant"), ("text", JVal.str "hi there")].lookup "text" =
        some (.str "hi there")) ∧
    (send_message_sync (.response 200 (.obj [("messages", .arr
        [ JVal.obj [("role", .str "user"), ("text", .str "hello")],
          JVal.obj [("role", .str "assistant"), ("text", .str "hi there")] ])])) =
        .ok (.reply (.str "hi there")) ∧
      send_message_sync (.response 200 payloadA) = .ok (.reply (.str "hi there")) ∧
      chatapi_loop ["hello"] [.response 200 payloadA] =
        ([.sentTurn "hello", .printedReply (.str "hi there")], .inputsExhausted)) :=
  ⟨rfl, rfl,
    C6_second_element_reply
      [ JVal.obj [("role", .str "user"), ("text", .str "hello")],
        JVal.obj [("role", .str "assistant"), ("text", .str "hi there")] ]
      [("role", JVal.str "assistant"), ("text", JVal.str "hi there")]
      (.str "hi there") rfl rfl⟩

/-- C3: evaluating the code at the failing input.  On a fresh plugin pair
(no document generated since process start) any upload request raises
`AttributeError` — the generator plugin's `__init__` never assigns
`document_buffer`, so the `is None` guard that would return the defined
no-file-content error is unreachable — and no PUT request is issued. -/
theorem C3_upload_before_generate_attribute_fault (putResp : HttpResult) :
    upload_generated_file generatorInit putResp =
      { outcome := .error .attributeError, gen := generatorInit, putIssued := false } :=
  rfl

/-- Helper for C4: once a document is held (buffer and filename both
assigned), one upload attempt — whatever the transport does — leaves the
generator's buffer fully consumed (read position at the end of the
data). -/
theorem upload_consumes_buffer (c : String) (buf : PyBuffer) (fn : String)
    (p : HttpResult) :
    (upload_generated_file ⟨c, .val buf, .val fn⟩ p).gen =
      ⟨c, .val { buf with pos := buf.data.length }, .val fn⟩ := by
  cases p with
  | connFailure =>
    simp only [upload_generated_file, PyBuffer.readAll]
    split <;> rfl
  | response status body =>
    simp only [upload_generated_file, PyBuffer.readAll]
    split
    · rfl
    · split
      · rfl
      · split <;> rfl

/-- C4: a generated document's buffer is read at most once.  After any
first upload attempt (successful or not), a second upload attempt
without regeneration finds the buffer exhausted and returns the defined
buffer-empty error without issuing a PUT; and scenario C's first upload
against the mock `{"webUrl":"https://site/report.docx"}` succeeds with
that URL. -/
theorem C4_buffer_read_at_most_once (filename content : String)
    (put1 put2 : HttpResult) (h : content.isEmpty = false) :
    (upload_generated_file
        (upload_generated_file
          (generate_word_document_bytes generatorInit filename content).2 put1).gen
        put2).outcome = .ok .bufferEmpty ∧
    (upload_generated_file
        (upload_generated_file
          (generate_word_document_bytes generatorInit filename content).2 put1).gen
        put2).putIssued = false ∧
    (upload_generated_file
        (generate_word_document_bytes generatorInit filename content).2 put1).gen =
      ⟨"", .val ⟨docx_render content, (docx_render content).length⟩, .val filename⟩ ∧
    (upload_generated_file
        (generate_word_document_bytes generatorInit "report.docx" "hello world").2
        (.response 200 payloadC)).outcome =
      .ok (.success (.str "https://site/report.docx")) := by
  have hgen : (generate_word_document_bytes generatorInit filename content).2 =
      ⟨"", .val ⟨docx_render content, 0⟩, .val filename⟩ := by
    simp [generate_word_document_bytes, h, generatorInit]
  have hone : (upload_generated_file
      (generate_word_document_bytes generatorInit filename content).2 put1).gen =
      ⟨"", .val ⟨docx_render content, (docx_render content).length⟩, .val filename⟩ := by
    rw [hgen, upload_consumes_buffer]
  refine ⟨?_, ?_, hone, rfl⟩ <;>
    rw [hone] <;>
    simp [upload_generated_file, PyBuffer.readAll, List.drop_length]

/-- C4 witness: scenario C concretely — generate `report.docx` with
content `"hello world"`, upload once against the mock (succeeding with
the URL), then upload again without regenerating. -/
theorem C4_witness :
    ("hello world" : String).isEmpty = false ∧
    ((upload_generated_file
        (upload_generated_file
          (generate_word_document_bytes generatorInit "report.docx" "hello world").2
          (.response 200 payloadC)).gen
        (.response 200 payloadC)).outcome = .ok .bufferEmpty ∧
    (upload_generated_file
        (upload_generated_file
          (generate_word_document_bytes generatorInit "report.docx" "hello world").2
          (.response 200 payloadC)).gen
        (.response 200 payloadC)).putIssued = false ∧
    (upload_generated_file
        (generate_word_document_bytes generatorInit "report.docx" "hello world").2
        (.response 200 payloadC)).gen =
      ⟨"", .val ⟨docx_render "hello world", (docx_render "hello world").length⟩,
        .val "report.docx"⟩ ∧
    (upload_generated_file
        (generate_word_document_bytes generatorInit "report.docx" "hello world").2
        (.response 200 payloadC)).outcome =
      .ok (.success (.str "https://site/report.docx"))) :=
  ⟨rfl, C4_buffer_read_at_most_once "report.docx" "hello world"
    (.response 200 payloadC) (.response 200 payloadC) rfl⟩

/-- Helper for C7: folding the run's credential mutations over the cache
leaves `has_state_changed` set exactly when the flag was already set or
at least one mutation occurred. -/
theorem foldl_applyMutation_dirty (muts : List String) (c : MsalCache) :
    (muts.foldl applyMutation c).has_state_changed =
      (c.has_state_changed || !muts.isEmpty) := by
  induction muts generalizing c with
  | nil => simp
  | cons m ms ih => simp [List.foldl_cons, ih, applyMutation]

/-- C7: dirty-flag persistence.  Over a whole process run, the single
`atexit`-registered `save_cache_on_exit` handler writes the cache file
exactly once when some credential mutation occurred during the run and
zero times otherwise, and a run with no credential change leaves the
cache file byte-identical. -/
theorem C7_dirty_flag_flush (file0 : Option String) (muts : List String) :
    (run_process file0 muts).2 = (if muts.isEmpty then 0 else 1) ∧
    (run_process file0 []).1 = file0 := by
  constructor
  · show (save_cache_on_exit
        (muts.foldl applyMutation (load_cache file0 ⟨[], false⟩)) file0).2 = _
    have hload : (load_cache file0 (⟨[], false⟩ : MsalCache)).has_state_changed = false := by
      cases file0 <;> rfl
    simp only [save_cache_on_exit, foldl_applyMutation_dirty, hload, Bool.false_or]
    cases h : muts.isEmpty <;> simp
  · show (save_cache_on_exit (load_cache file0 ⟨[], false⟩) file0).1 = file0
    cases file0 <;> rfl

/-- C8: evaluating the code at the failing input.  The reserved input
`"exit"` makes the Semantic Kernel loop print the cleaning-up messages
and call `sys.exit()` — but no path of the prompt loop ever issues the
delete-conversation request (the `end_conversation` invocations on both
termination paths are commented out in the source), even though
`end_conversation` itself, when invoked, always issues exactly that
DELETE. -/
theorem C8_exit_without_remote_cleanup :
    (∀ (rest : List String) (ais : List AIResult),
      sk_loop ("exit" :: rest) ais = ([.printedCleaningUp], .exitCalled)) ∧
    (∀ (inputs : List String) (ais : List AIResult) (cid : String),
      SKEvent.httpDelete cid ∉ (sk_loop inputs ais).1) ∧
    (∀ (cid : String) (resp : HttpResult), (end_conversation cid resp).2 = true) := by
  refine ⟨fun rest ais => rfl, ?_, ?_⟩
  · intro inputs
    induction inputs with
    | nil => intro ais cid; simp [sk_loop]
    | cons line rest ih =>
      intro ais cid
      simp only [sk_loop]
      split
      · simp
      · split
        · simpa using ih ais cid
        · match ais with
          | [] => simp
          | .reply s :: tailAis => simpa using ih tailAis cid
          | .raises :: tailAis => simp
  · intro cid resp
    cases resp with
    | connFailure => rfl
    | response status body => simp only [end_conversation]; split <;> rfl

/-- C9 counterexample: in the M365ChatAPI loop the input line `"Hello"`
is forwarded as the turn text `"hello"` — the line is lowercased before
being sent, so input is not forwarded unchanged. -/
theorem C9_counterexample :
    chatapi_loop ["Hello"] [.response 200 payloadA] =
      ([.sentTurn "hello", .printedReply (.str "hi there")], .inputsExhausted) ∧
    ("hello" : String) ≠ "Hello" :=
  ⟨rfl, by decide⟩

/-- C9 (amended): the reserved input terminates both prompt loops —
compared after lowercasing and stripping — and every other line is
forwarded after normalization rather than unchanged: the M365ChatAPI
loop forwards the lowercased, stripped line, while the Semantic Kernel
loop forwards the stripped line and silently skips blank lines. -/
theorem C9_amended_cli_surface (line : String) (rest : List String)
    (resps : List HttpResult) (ais : List AIResult) :
    (py_strip (py_lower line) = "exit" →
      chatapi_loop (line :: rest) resps = ([], .exitCalled)) ∧
    (py_lower (py_strip line) = "exit" →
      sk_loop (line :: rest) ais = ([.printedCleaningUp], .exitCalled)) ∧
    (∀ (r : HttpResult) (rs : List HttpResult), py_strip (py_lower line) ≠ "exit" →
      (chatapi_loop (line :: rest) (r :: rs)).1.head? =
        some (.sentTurn (py_strip (py_lower line)))) ∧
    (∀ (a : AIResult) (tailAis : List AIResult), py_lower (py_strip line) ≠ "exit" →
      (py_strip line).isEmpty = false →
      (sk_loop (line :: rest) (a :: tailAis)).1.head? =
        some (.invokedTurn (py_strip line))) := by
  refine ⟨?_, ?_, ?_, ?_⟩
  · intro h
    simp only [chatapi_loop, if_pos h]
  · intro h
    simp only [sk_loop, if_pos h]
  · intro r rs h
    cases r with
    | connFailure => simp [chatapi_loop, if_neg h]
    | response status body =>
      simp only [chatapi_loop, if_neg h]
      split
      · rfl
      · split <;> rfl
  · intro a tailAis h hne
    cases a <;> simp [sk_loop, if_neg h, hne]

/-- C9 amended witness: `"exit"` terminates both loops; the line
`"Hi there"` is forwarded as `"hi there"` by the M365ChatAPI loop and as
`"Hi there"` by the Semantic Kernel loop. -/
theorem C9_witness :
    chatapi_loop ["exit"] [] = ([], .exitCalled) ∧
    sk_loop ["exit"] [] = ([.printedCleaningUp], .exitCalled) ∧
    (chatapi_loop ["Hi there"] [.connFailure]).1.head? =
      some (.sentTurn (py_strip (py_lower "Hi there"))) ∧
    (sk_loop ["Hi there"] [.reply "ok"]).1.head? =
      some (.invokedTurn (py_strip "Hi there")) :=
  ⟨(C9_amended_cli_surface "exit" [] [] []).1 rfl,
   (C9_amended_cli_surface "exit" [] [] []).2.1 rfl,
   (C9_amended_cli_surface "Hi there" [] [] []).2.2.1 .connFailure [] (by decide),
   (C9_amended_cli_surface "Hi there" [] [] []).2.2.2 (.reply "ok") [] (by decide) rfl⟩
